import Mathlib

/-!
Shallow embedding of the payment verification and replay-protection engine
of the dune_mcp repository.

The embedded code:
* `src/services/paymentTracker.ts` (`PaymentTracker`: `validatePayment`,
  `getPaymentRecord`, `validateOnBlockchain`, `verifyPaymentDetails`,
  `recordPayment`, `incrementUsageCount`);
* `src/services/simplePaymentTracker.ts` (`SimplePaymentTracker`:
  `isSignatureUsed`, `recordPayment`, `recordReplayAttempt`);
* `src/middleware/paymentMiddleware.ts` (`validatePaymentMiddleware` and
  `validateSOLPayment`).

The database is modelled as a list of rows with the storage-level UNIQUE
constraint on `signature` from `schema.sql`; fallible external calls
(Postgres, the Solana RPC endpoint) are driven by explicit fault/oracle
parameters.  Check-then-act races are modelled by giving each request the
ledger snapshot it sees at its lookup and the ledger state at its commit.
-/

namespace DuneMcp

/-- Mirror of the `PaymentRecord` interface of `paymentTracker.ts`
(a row of the `payment_signatures` table). -/
structure PaymentRecord where
  signature : String
  network : String
  amount : Int
  asset : String
  senderAddress : String
  receiverAddress : String
  apiEndpoint : String
  blockTime : Option Int
  firstUsedAt : Nat
  usageCount : Nat
  ipAddress : Option String
  userAgent : Option String
  deriving Repr, DecidableEq

/-- Mirror of `PaymentValidationResult` of `paymentTracker.ts`. -/
structure PaymentValidationResult where
  isValid : Bool
  isFirstUse : Bool
  error : Option String
  paymentRecord : Option PaymentRecord
  deriving Repr, DecidableEq

/-- The `payment_signatures` table, newest row first.  `schema.sql` puts a
UNIQUE constraint on the `signature` column. -/
abbrev Ledger := List PaymentRecord

/-- `SELECT * FROM payment_signatures WHERE signature = $1`
(`PaymentTracker.getPaymentRecord` / `SimplePaymentTracker.isSignatureUsed`). -/
def lookupRecord (l : Ledger) (sig : String) : Option PaymentRecord :=
  l.find? (fun r => r.signature == sig)

/-- `UPDATE payment_signatures SET usage_count = usage_count + 1 WHERE
signature = $1` (`incrementUsageCount` / `recordReplayAttempt`). -/
def incrementUsage (l : Ledger) (sig : String) : Ledger :=
  l.map (fun r => if r.signature == sig then { r with usageCount := r.usageCount + 1 } else r)

/-- Solana commitment levels used by the middleware and the tracker. -/
inductive Commitment
  | confirmed
  | finalized
  deriving Repr, DecidableEq

/-- The part of a `getTransaction` response that the code inspects:
account keys, presence of `meta`, `meta.err`, pre/post balances, blockTime. -/
structure TxRecord where
  accounts : List String
  hasMeta : Bool
  metaErr : Bool
  preBalances : List Int
  postBalances : List Int
  blockTime : Option Int
  deriving Repr, DecidableEq

/-- Outcome of one `connection.getTransaction` call: the RPC client threw,
returned `null`, or returned a transaction record. -/
inductive ChainResponse
  | rpcError (msg : String)
  | missing
  | found (tx : TxRecord)
  deriving Repr, DecidableEq

/-- The chain as seen by `PaymentTracker.validateOnBlockchain`: one response
per requested commitment level. -/
abbrev ChainOracle := Commitment → ChainResponse

/-- Mirror of the anonymous result record of
`PaymentTracker.validateOnBlockchain`. -/
structure BlockchainValidation where
  isValid : Bool
  error : Option String
  amount : Option Int
  asset : Option String
  senderAddress : Option String
  receiverAddress : Option String
  blockTime : Option Int
  deriving Repr, DecidableEq

/-- A failed `BlockchainValidation` with an error message. -/
def chainInvalid (msg : String) : BlockchainValidation :=
  { isValid := false, error := some msg, amount := none, asset := none,
    senderAddress := none, receiverAddress := none, blockTime := none }

/-- The sender heuristic of `validateOnBlockchain`: the first account whose
balance strictly decreased and that is not the receiver. -/
def findSender (receiver : String) (accounts : List String) (pre post : List Int) : String :=
  match (List.range accounts.length).find?
      (fun i => decide (post.getD i 0 - pre.getD i 0 < 0) && accounts.getD i "" != receiver) with
  | some i => accounts.getD i ""
  | none => ""

/-- `PaymentTracker.validateOnBlockchain`: a single `getTransaction` at the
`confirmed` commitment, then receiver lookup and pre/post balance diff.
Returns the validation together with the list of commitment levels queried. -/
def validateOnBlockchain (receiver : String) (oracle : ChainOracle) :
    BlockchainValidation × List Commitment :=
  match oracle Commitment.confirmed with
  | ChainResponse.rpcError msg =>
      (chainInvalid ("Blockchain validation failed: " ++ msg), [Commitment.confirmed])
  | ChainResponse.missing =>
      (chainInvalid "Transaction not found on blockchain", [Commitment.confirmed])
  | ChainResponse.found tx =>
      if !tx.hasMeta || tx.metaErr then
        (chainInvalid "Transaction failed on blockchain", [Commitment.confirmed])
      else
        match tx.accounts.findIdx? (fun a => a == receiver) with
        | none =>
            (chainInvalid "Payment not sent to expected receiver address", [Commitment.confirmed])
        | some receiverIndex =>
            let balanceChange := tx.postBalances.getD receiverIndex 0 -
              tx.preBalances.getD receiverIndex 0
            if balanceChange ≤ 0 then
              (chainInvalid "No positive balance change detected for receiver",
               [Commitment.confirmed])
            else
              ({ isValid := true, error := none, amount := some balanceChange,
                 asset := some "native",
                 senderAddress := some (findSender receiver tx.accounts tx.preBalances tx.postBalances),
                 receiverAddress := some receiver, blockTime := tx.blockTime },
               [Commitment.confirmed])

/-- Rendering of an optional number inside a template literal
(JavaScript prints `undefined` for a missing field). -/
def optIntStr : Option Int → String
  | some n => toString n
  | none => "undefined"

/-- Rendering of an optional string inside a template literal. -/
def optStr : Option String → String
  | some s => s
  | none => "undefined"

/-- Result record of `PaymentTracker.verifyPaymentDetails`. -/
structure DetailCheck where
  isValid : Bool
  error : Option String
  deriving Repr, DecidableEq

/-- `PaymentTracker.verifyPaymentDetails`: asset equality then the amount
comparison `transactionInfo.amount < expectedAmount` on exact integers. -/
def verifyPaymentDetails (t : BlockchainValidation) (expectedAmount : Int)
    (expectedAsset : String) : DetailCheck :=
  if t.asset ≠ some expectedAsset then
    { isValid := false,
      error := some ("Wrong asset type. Expected: " ++ expectedAsset ++ ", Got: " ++ optStr t.asset) }
  else if t.amount.getD 0 < expectedAmount then
    { isValid := false,
      error := some ("Insufficient payment amount. Expected: " ++ toString expectedAmount ++
        ", Got: " ++ optIntStr t.amount) }
  else
    { isValid := true, error := none }

/-- Potential failures of the Postgres calls made by `PaymentTracker`:
`some msg` means the corresponding query throws with that message.
`insertFault` is an infrastructure failure of the `INSERT`; the duplicate-key
failure of the UNIQUE constraint is modelled separately (it depends on the
ledger contents at commit time, not on the environment). -/
structure StoreEnv where
  lookupFault : Option String
  incrementFault : Option String
  insertFault : Option String
  deriving Repr, DecidableEq

/-- A fault-free storage environment. -/
def noFaults : StoreEnv :=
  { lookupFault := none, incrementFault := none, insertFault := none }

/-- The result built by the top-level `catch` of
`PaymentTracker.validatePayment`. -/
def catchFail (msg : String) : PaymentValidationResult :=
  { isValid := false, isFirstUse := false,
    error := some ("Payment validation failed: " ++ msg), paymentRecord := none }

/-- Error message of a Postgres duplicate-key violation of the UNIQUE
constraint on `payment_signatures.signature`. -/
def duplicateKeyMsg : String :=
  "duplicate key value violates unique constraint \x22payment_signatures_signature_key\x22"

/-- The replay-path error message of `PaymentTracker.validatePayment`. -/
def alreadyUsedMsg : String :=
  "Payment signature already used (replay attack prevented)"

/-- Result of one `PaymentTracker.validatePayment` call: the returned
`PaymentValidationResult`, the ledger after the call, and the commitment
levels at which the chain was queried (`[]` means no chain read). -/
structure VerifyOutcome where
  result : PaymentValidationResult
  ledger : Ledger
  chain : List Commitment
  deriving Repr, DecidableEq

/-- `PaymentTracker.validatePayment`, with the check-then-act structure made
explicit: `ledgerAtLookup` is the snapshot `getPaymentRecord` reads (step 1)
and `ledgerAtCommit` is the table state when `recordPayment` runs its
`INSERT` (step 4).  A concurrent request may insert a row between the two,
in which case the storage-level UNIQUE constraint makes the `INSERT` throw
a duplicate-key error, which the method's top-level `catch` turns into the
generic `Payment validation failed: ...` result. -/
def validatePaymentAt (env : StoreEnv) (receiver : String) (oracle : ChainOracle)
    (ledgerAtLookup ledgerAtCommit : Ledger) (sig : String) (expectedAmount : Int)
    (expectedAsset : String) (apiEndpoint : String) (now : Nat)
    (clientIP userAgent : Option String) : VerifyOutcome :=
  match env.lookupFault with
  | some msg => { result := catchFail msg, ledger := ledgerAtCommit, chain := [] }
  | none =>
    match lookupRecord ledgerAtLookup sig with
    | some existingRecord =>
      match env.incrementFault with
      | some msg => { result := catchFail msg, ledger := ledgerAtCommit, chain := [] }
      | none =>
        { result := { isValid := false, isFirstUse := false,
                      error := some alreadyUsedMsg, paymentRecord := some existingRecord },
          ledger := incrementUsage ledgerAtCommit sig, chain := [] }
    | none =>
      let tq := validateOnBlockchain receiver oracle
      let t := tq.1
      if t.isValid = false then
        { result := { isValid := false, isFirstUse := true, error := t.error,
                      paymentRecord := none },
          ledger := ledgerAtCommit, chain := tq.2 }
      else
        let v := verifyPaymentDetails t expectedAmount expectedAsset
        if v.isValid = false then
          { result := { isValid := false, isFirstUse := true, error := v.error,
                        paymentRecord := none },
            ledger := ledgerAtCommit, chain := tq.2 }
        else
          match env.insertFault with
          | some msg => { result := catchFail msg, ledger := ledgerAtCommit, chain := tq.2 }
          | none =>
            if (lookupRecord ledgerAtCommit sig).isSome then
              { result := catchFail duplicateKeyMsg, ledger := ledgerAtCommit, chain := tq.2 }
            else
              let row : PaymentRecord :=
                { signature := sig, network := "solana",
                  amount := t.amount.getD 0, asset := t.asset.getD "SOL",
                  senderAddress := t.senderAddress.getD "",
                  receiverAddress := t.receiverAddress.getD "",
                  apiEndpoint := apiEndpoint, blockTime := t.blockTime,
                  firstUsedAt := now, usageCount := 1,
                  ipAddress := clientIP, userAgent := userAgent }
              { result := { isValid := true, isFirstUse := true, error := none,
                            paymentRecord := some row },
                ledger := row :: ledgerAtCommit, chain := tq.2 }

/-- `PaymentTracker.validatePayment` for a request that runs without
interference: the lookup and the commit see the same ledger state. -/
def validatePayment (env : StoreEnv) (receiver : String) (oracle : ChainOracle)
    (ledger : Ledger) (sig : String) (expectedAmount : Int) (expectedAsset : String)
    (apiEndpoint : String) (now : Nat) (clientIP userAgent : Option String) : VerifyOutcome :=
  validatePaymentAt env receiver oracle ledger ledger sig expectedAmount expectedAsset
    apiEndpoint now clientIP userAgent

/-- The payment headers read by `validatePaymentMiddleware`; `none` models a
missing header (JavaScript `undefined`). -/
structure GateHeaders where
  signature : Option String
  network : Option String
  amount : Option String
  deriving Repr, DecidableEq

/-- A header value is falsy when the header is absent or the empty string
(the `!signature || !network || !amount` test). -/
def headerFalsy (h : Option String) : Bool :=
  h.getD "" == ""

/-- Response of `validatePaymentMiddleware` as seen by the caller. -/
inductive GateOutcome
  | nextDev
  | paymentRequired
  | denied (status : Nat) (isReplayAttack : Bool) (errorMsg : Option String)
      (details : Option PaymentRecord)
  | nextVerified (sig network amount : String)
  deriving Repr, DecidableEq

/-- Result of one `validatePaymentMiddleware` request: the HTTP-level
outcome, the ledger afterwards, and the chain reads performed. -/
structure GateRun where
  outcome : GateOutcome
  ledger : Ledger
  chain : List Commitment
  deriving Repr, DecidableEq

/-- `validatePaymentMiddleware` of `paymentMiddleware.ts`: development-mode
bypass, missing-header check (402), conversion of the SOL price to lamports
via `BigInt(Math.floor(requiredAmountSOL * 1e9))`, delegation to
`PaymentTracker.validatePayment`, and mapping of its result to
400/409 (`is_replay_attack = !isFirstUse`) or `next()`. -/
def validatePaymentMiddleware (nodeEnv : String) (receiver : String) (env : StoreEnv)
    (oracle : ChainOracle) (ledger : Ledger) (requiredAmountSOL : ℚ)
    (endpoint : String) (headers : GateHeaders) (now : Nat)
    (clientIP userAgent : Option String) : GateRun :=
  if nodeEnv == "development" then
    { outcome := GateOutcome.nextDev, ledger := ledger, chain := [] }
  else if headerFalsy headers.signature || headerFalsy headers.network ||
      headerFalsy headers.amount then
    { outcome := GateOutcome.paymentRequired, ledger := ledger, chain := [] }
  else
    let expectedAmount : Int := Int.floor (requiredAmountSOL * 1000000000)
    let out := validatePayment env receiver oracle ledger (headers.signature.getD "")
      expectedAmount "native" endpoint now clientIP userAgent
    if out.result.isValid = false then
      { outcome := GateOutcome.denied (if out.result.isFirstUse then 400 else 409)
          (!out.result.isFirstUse) out.result.error out.result.paymentRecord,
        ledger := out.ledger, chain := out.chain }
    else
      { outcome := GateOutcome.nextVerified (headers.signature.getD "")
          (headers.network.getD "") (headers.amount.getD ""),
        ledger := out.ledger, chain := out.chain }

/-! ### The `SimplePaymentTracker` path (`validateSOLPayment`) -/

/-- Failure switches for the calls made by `validateSOLPayment` and
`SimplePaymentTracker`.  `lookupFault`: the `SELECT` of `isSignatureUsed`
throws (caught inside, which returns `false`, "Allow in case of DB issues");
`replayRecordFault` / `recordFault`: the tracker's `UPDATE` / `INSERT`
throws (caught and swallowed inside the tracker); `chainFault`: the
`getTransaction` call throws (caught by the middleware's outer `catch`,
producing a 500). -/
structure SolEnv where
  lookupFault : Option String
  replayRecordFault : Bool
  recordFault : Bool
  chainFault : Option String
  deriving Repr, DecidableEq

/-- A fault-free environment for the `validateSOLPayment` path. -/
def solNoFaults : SolEnv :=
  { lookupFault := none, replayRecordFault := false, recordFault := false,
    chainFault := none }

/-- `SimplePaymentTracker.isSignatureUsed`: a row lookup whose `catch`
returns `false` on a database error ("Allow in case of DB issues"). -/
def isSignatureUsed (fault : Option String) (l : Ledger) (sig : String) : Bool :=
  match fault with
  | some _ => false
  | none => (lookupRecord l sig).isSome

/-- `SimplePaymentTracker.recordReplayAttempt`: best-effort counter bump
whose own failure is swallowed. -/
def recordReplayAttempt (fault : Bool) (l : Ledger) (sig : String) : Ledger :=
  if fault then l else incrementUsage l sig

/-- `SimplePaymentTracker.recordPayment`: an `INSERT` of the signature row
(`usage_count` takes the schema default 1, `amount` is
`Math.floor(amount * 1e9)` lamports).  Any failure — an infrastructure
fault or the duplicate-key violation of the UNIQUE constraint when the row
already exists — is caught and swallowed ("Don't throw - let the request
proceed even if DB recording fails"), leaving the table unchanged. -/
def simpleRecordPayment (fault : Bool) (l : Ledger) (sig : String) (amountSol : ℚ)
    (currency : String) (ipAddress userAgent : String) (endpointPath : String) : Ledger :=
  if fault then l
  else if (lookupRecord l sig).isSome then l
  else
    { signature := sig, network := "solana",
      amount := Int.floor (amountSol * 1000000000), asset := currency,
      senderAddress := "HKc1p8QY1XquJXEkQ5Qep9CqU3nnpTa7A9YA32jTfWA5",
      receiverAddress := "FwJ3yH7AxZjxveFmbK74ZdLp6EaaLLoRffhiKVP3VX98",
      apiEndpoint := endpointPath, blockTime := none, firstUsedAt := 0,
      usageCount := 1, ipAddress := some ipAddress, userAgent := some userAgent } :: l

/-- The chain as seen by the retry loop of `validateSOLPayment`: the
`getTransaction` result per attempt number and commitment level. -/
structure SolChainOracle where
  confirmedResp : Nat → Option TxRecord
  finalizedResp : Nat → Option TxRecord

/-- The transaction-lookup `while` loop of `validateSOLPayment`: on each
attempt query at `confirmed`, fall back to `finalized` if empty, and retry
(after a one-second sleep) while no transaction was found and fewer than
`maxAttempts` attempts were made.  Returns the transaction found (if any)
and the trace of (attempt, commitment) queries issued. -/
def solTxSearch (o : SolChainOracle) : Nat → Nat → Option TxRecord × List (Nat × Commitment)
  | _, 0 => (none, [])
  | attempt, remaining + 1 =>
    match o.confirmedResp attempt with
    | some tx => (some tx, [(attempt, Commitment.confirmed)])
    | none =>
      match o.finalizedResp attempt with
      | some tx => (some tx, [(attempt, Commitment.confirmed), (attempt, Commitment.finalized)])
      | none =>
        let rest := solTxSearch o (attempt + 1) remaining
        (rest.1, (attempt, Commitment.confirmed) :: (attempt, Commitment.finalized) :: rest.2)

/-- The lookup loop with the middleware's constants: first attempt numbered
1, `maxAttempts = 2`. -/
def solLookup (o : SolChainOracle) : Option TxRecord × List (Nat × Commitment) :=
  solTxSearch o 1 2

/-- Response of `validateSOLPayment` as seen by the caller: development
bypass (`next()` with nothing attached), 402, 409 replay conflict, 400,
500, or `next()` with `res.locals.paymentVerified = true` and the received
SOL amount attached. -/
inductive SolOutcome
  | nextDev
  | paymentRequired
  | conflictReplay (errorMsg : String)
  | badRequest (errorMsg : String)
  | serverError (msg : String)
  | nextVerified (solReceived : ℚ)
  deriving Repr, DecidableEq

/-- Whether a `validateSOLPayment` outcome lets the request through to the
paid handler (`next()` was called). -/
def SolOutcome.isAccept : SolOutcome → Bool
  | SolOutcome.nextDev => true
  | SolOutcome.nextVerified _ => true
  | _ => false

/-- Result of one `validateSOLPayment` request: outcome, ledger afterwards,
and the trace of chain queries (attempt number, commitment level). -/
structure SolRun where
  outcome : SolOutcome
  ledger : Ledger
  chain : List (Nat × Commitment)
  deriving Repr, DecidableEq

/-- `validateSOLPayment` of `paymentMiddleware.ts`, with the check-then-act
structure explicit: `ledgerAtLookup` is what `isSignatureUsed` reads and
`ledgerAtCommit` is the table state when the tracker's write
(`recordReplayAttempt` or `recordPayment`) runs.  Control flow:
development bypass; 402 when the signature header is falsy; replay check
(409 + best-effort counter bump on a hit); the retry lookup loop; `meta`
check; receiver lookup among the static account keys; balance diff
converted to SOL by `(postBalance - preBalance) / 1e9` and compared with
`expectedAmountSol`; on success `recordPayment` (failures swallowed) and
`next()`. -/
def validateSOLPaymentAt (nodeEnv : String) (receiver : String) (env : SolEnv)
    (o : SolChainOracle) (ledgerAtLookup ledgerAtCommit : Ledger)
    (headerSignature : Option String) (expectedAmountSol : ℚ)
    (endpointPath : String) (ipAddress userAgent : String) : SolRun :=
  if nodeEnv == "development" then
    { outcome := SolOutcome.nextDev, ledger := ledgerAtCommit, chain := [] }
  else if headerFalsy headerSignature then
    { outcome := SolOutcome.paymentRequired, ledger := ledgerAtCommit, chain := [] }
  else
    let sig := headerSignature.getD ""
    if isSignatureUsed env.lookupFault ledgerAtLookup sig then
      { outcome := SolOutcome.conflictReplay
          "Payment signature already used (replay attack prevented)",
        ledger := recordReplayAttempt env.replayRecordFault ledgerAtCommit sig, chain := [] }
    else
      match env.chainFault with
      | some msg => { outcome := SolOutcome.serverError msg, ledger := ledgerAtCommit, chain := [] }
      | none =>
        let found := solLookup o
        match found.1 with
        | none =>
            { outcome := SolOutcome.badRequest "Transaction not found or not confirmed",
              ledger := ledgerAtCommit, chain := found.2 }
        | some tx =>
          if !tx.hasMeta || tx.metaErr then
            { outcome := SolOutcome.badRequest "Transaction failed on blockchain",
              ledger := ledgerAtCommit, chain := found.2 }
          else
            match tx.accounts.findIdx? (fun a => a == receiver) with
            | none =>
                { outcome := SolOutcome.badRequest "Payment not sent to correct address",
                  ledger := ledgerAtCommit, chain := found.2 }
            | some receiverIndex =>
              let preBalance := tx.preBalances.getD receiverIndex 0
              let postBalance := tx.postBalances.getD receiverIndex 0
              let solReceived : ℚ := mkRat (postBalance - preBalance) 1000000000
              if solReceived < expectedAmountSol then
                { outcome := SolOutcome.badRequest
                    ("Insufficient payment amount. Expected " ++ toString expectedAmountSol ++
                     " SOL, received " ++ toString solReceived ++ " SOL"),
                  ledger := ledgerAtCommit, chain := found.2 }
              else
                { outcome := SolOutcome.nextVerified solReceived,
                  ledger := simpleRecordPayment env.recordFault ledgerAtCommit sig solReceived
                    "SOL" ipAddress userAgent endpointPath,
                  chain := found.2 }

/-- `validateSOLPayment` for a request that runs without interference. -/
def validateSOLPayment (nodeEnv : String) (receiver : String) (env : SolEnv)
    (o : SolChainOracle) (ledger : Ledger) (headerSignature : Option String)
    (expectedAmountSol : ℚ) (endpointPath : String)
    (ipAddress userAgent : String) : SolRun :=
  validateSOLPaymentAt nodeEnv receiver env o ledger ledger headerSignature
    expectedAmountSol endpointPath ipAddress userAgent

/-- `k` sequential presentations of the same signature through
`PaymentTracker.validatePayment`, threading the ledger. -/
def presentTimes (env : StoreEnv) (receiver : String) (oracle : ChainOracle)
    (ledger : Ledger) (sig : String) (expectedAmount : Int) (expectedAsset : String)
    (apiEndpoint : String) (now : Nat) : Nat → Ledger
  | 0 => ledger
  | k + 1 =>
    (validatePayment env receiver oracle
      (presentTimes env receiver oracle ledger sig expectedAmount expectedAsset apiEndpoint now k)
      sig expectedAmount expectedAsset apiEndpoint now none none).ledger

/-! ### Fixtures: a concrete valid transfer and oracles for witnesses -/

/-- A chain oracle answering every commitment level the same way. -/
def constOracle (r : ChainResponse) : ChainOracle := fun _ => r

/-- A successful transaction moving `amt` lamports from `sender` to
`receiver` (sender pays from `startBal`). -/
def txTransfer (sender receiver : String) (startBal amt : Int) : TxRecord :=
  { accounts := [sender, receiver], hasMeta := true, metaErr := false,
    preBalances := [startBal, 0], postBalances := [startBal - amt, amt],
    blockTime := none }

/-- A concrete valid transfer of 200000000 lamports (0.2 SOL) to `RCV`. -/
def txValid : TxRecord := txTransfer "SND" "RCV" 1000000000 200000000

/-- Oracle for `PaymentTracker`: `txValid` is visible at every level. -/
def oracleValid : ChainOracle := constOracle (ChainResponse.found txValid)

/-- Oracle for `validateSOLPayment`: `txValid` found at the first
`confirmed` query. -/
def solOracleValid : SolChainOracle :=
  { confirmedResp := fun _ => some txValid, finalizedResp := fun _ => none }

/-- The replay result of the `LedgerCheck` step of
`PaymentTracker.validatePayment` when the prior row is `r`. -/
def replayResult (r : PaymentRecord) : PaymentValidationResult :=
  { isValid := false, isFirstUse := false, error := some alreadyUsedMsg,
    paymentRecord := some r }

/-! ### Ledger lemmas -/

theorem lookupRecord_incrementUsage (l : Ledger) (sig : String) :
    lookupRecord (incrementUsage l sig) sig =
      (lookupRecord l sig).map (fun r => { r with usageCount := r.usageCount + 1 }) := by
  induction l with
  | nil => rfl
  | cons r t ih =>
    by_cases h : (r.signature == sig) = true
    · have h' : r.signature = sig := by simpa using h
      simp [lookupRecord, incrementUsage, List.find?_cons, h']
    · simp only [lookupRecord, incrementUsage, List.map_cons] at ih ⊢
      rw [if_neg (by simp_all)]
      rw [List.find?_cons_of_neg _ (by simp_all), List.find?_cons_of_neg _ (by simp_all)]
      exact ih

/-- `usageCount` never decreases: every row of `l` has a row with the same
signature and a count at least as large in `l2`. -/
def countsMono (l l2 : Ledger) : Prop :=
  ∀ r ∈ l, ∃ r2 ∈ l2, r2.signature = r.signature ∧ r.usageCount ≤ r2.usageCount

theorem countsMono_refl (l : Ledger) : countsMono l l :=
  fun r hr => ⟨r, hr, rfl, Nat.le_refl _⟩

theorem countsMono_incrementUsage (l : Ledger) (sig : String) :
    countsMono l (incrementUsage l sig) := by
  intro r hr
  refine ⟨(fun r => if r.signature == sig then { r with usageCount := r.usageCount + 1 }
    else r) r, List.mem_map_of_mem _ hr, ?_⟩
  by_cases h : (r.signature == sig) = true <;> simp [h]

theorem countsMono_cons (l : Ledger) (row : PaymentRecord) : countsMono l (row :: l) :=
  fun r hr => ⟨r, List.mem_cons_of_mem _ hr, rfl, Nat.le_refl _⟩

/-! ### Inversion lemmas for `validatePaymentAt` -/

/-- The replay path of `PaymentTracker.validatePayment`: a ledger hit with a
healthy lookup and counter update yields the `AlreadyUsed` result with the
prior record, bumps the counter, and performs no chain read. -/
theorem validatePaymentAt_replay (env : StoreEnv) (R : String) (o : ChainOracle)
    (Ll Lc : Ledger) (sig : String) (e : Int) (asset ep : String) (now : Nat)
    (ip ua : Option String) (r : PaymentRecord)
    (h1 : env.lookupFault = none) (h2 : env.incrementFault = none)
    (h3 : lookupRecord Ll sig = some r) :
    validatePaymentAt env R o Ll Lc sig e asset ep now ip ua =
      { result := replayResult r, ledger := incrementUsage Lc sig, chain := [] } := by
  unfold validatePaymentAt
  simp [h1, h2, h3, replayResult]

/-- Inversion of the accept path: if `validatePaymentAt` returns
`isValid = true` then no storage fault fired, both ledger snapshots missed
the signature, the chain and detail checks passed, and the resulting ledger
is the commit-time ledger with one new row for the signature with
`usageCount = 1`. -/
theorem validatePaymentAt_accept (env : StoreEnv) (R : String) (o : ChainOracle)
    (Ll Lc : Ledger) (sig : String) (e : Int) (asset ep : String) (now : Nat)
    (ip ua : Option String)
    (h : (validatePaymentAt env R o Ll Lc sig e asset ep now ip ua).result.isValid = true) :
    env.lookupFault = none ∧ env.insertFault = none ∧
    lookupRecord Ll sig = none ∧ lookupRecord Lc sig = none ∧
    (validateOnBlockchain R o).1.isValid = true ∧
    (verifyPaymentDetails (validateOnBlockchain R o).1 e asset).isValid = true ∧
    ∃ row, (validatePaymentAt env R o Ll Lc sig e asset ep now ip ua).ledger = row :: Lc ∧
      row.signature = sig ∧ row.usageCount = 1 := by
  rcases h1 : env.lookupFault with _ | m
  · rcases h2 : lookupRecord Ll sig with _ | r
    · by_cases h3 : (validateOnBlockchain R o).1.isValid = false
      · exfalso; unfold validatePaymentAt at h; simp [h1, h2, h3, catchFail] at h
      · by_cases h4 : (verifyPaymentDetails (validateOnBlockchain R o).1 e asset).isValid = false
        · exfalso; unfold validatePaymentAt at h; simp [h1, h2, h3, h4, catchFail] at h
        · rcases h5 : env.insertFault with _ | m2
          · by_cases h6 : (lookupRecord Lc sig).isSome = true
            · exfalso; unfold validatePaymentAt at h
              simp [h1, h2, h3, h4, h5, h6, catchFail] at h
            · have h6n : lookupRecord Lc sig = none := by
                cases hx : lookupRecord Lc sig with
                | none => rfl
                | some v => exact absurd (by simp [hx]) h6
              refine ⟨rfl, rfl, rfl, h6n, by simpa using h3, by simpa using h4,
                { signature := sig, network := "solana",
                  amount := (validateOnBlockchain R o).1.amount.getD 0,
                  asset := (validateOnBlockchain R o).1.asset.getD "SOL",
                  senderAddress := (validateOnBlockchain R o).1.senderAddress.getD "",
                  receiverAddress := (validateOnBlockchain R o).1.receiverAddress.getD "",
                  apiEndpoint := ep, blockTime := (validateOnBlockchain R o).1.blockTime,
                  firstUsedAt := now, usageCount := 1, ipAddress := ip, userAgent := ua },
                ?_, rfl, rfl⟩
              unfold validatePaymentAt
              simp [h1, h2, h3, h4, h5, h6n]
          · exfalso; unfold validatePaymentAt at h
            simp [h1, h2, h3, h4, h5, catchFail] at h
    · rcases h2a : env.incrementFault with _ | m2
      · exfalso; unfold validatePaymentAt at h; simp [h1, h2, h2a] at h
      · exfalso; unfold validatePaymentAt at h; simp [h1, h2, h2a, catchFail] at h
  · exfalso; unfold validatePaymentAt at h; simp [h1, catchFail] at h

/-- One `validatePaymentAt` call leaves the commit-time ledger unchanged,
bumps one counter, or prepends one new row. -/
theorem validatePaymentAt_ledger_cases (env : StoreEnv) (R : String) (o : ChainOracle)
    (Ll Lc : Ledger) (sig : String) (e : Int) (asset ep : String) (now : Nat)
    (ip ua : Option String) :
    (validatePaymentAt env R o Ll Lc sig e asset ep now ip ua).ledger = Lc ∨
    (validatePaymentAt env R o Ll Lc sig e asset ep now ip ua).ledger = incrementUsage Lc sig ∨
    ∃ row, (validatePaymentAt env R o Ll Lc sig e asset ep now ip ua).ledger = row :: Lc := by
  unfold validatePaymentAt
  rcases h1 : env.lookupFault with _ | m
  · rcases h2 : lookupRecord Ll sig with _ | r
    · by_cases h3 : (validateOnBlockchain R o).1.isValid = false
      · simp [h1, h2, h3]
      · by_cases h4 : (verifyPaymentDetails (validateOnBlockchain R o).1 e asset).isValid = false
        · simp [h1, h2, h3, h4]
        · rcases h5 : env.insertFault with _ | m2
          · by_cases h6 : (lookupRecord Lc sig).isSome = true
            · simp [h1, h2, h3, h4, h5, h6]
            · simp [h1, h2, h3, h4, h5, h6]
          · simp [h1, h2, h3, h4, h5]
    · rcases h2a : env.incrementFault with _ | m2
      · simp [h1, h2, h2a]
      · simp [h1, h2, h2a]
  · simp [h1]

/-- `validateOnBlockchain` on a `txTransfer` of `a > 0` lamports to the
configured receiver: valid, amount `a`, asset `native`. -/
theorem validateOnBlockchain_txTransfer (b a : Int) (ha : 0 < a) :
    (validateOnBlockchain "RCV" (constOracle (ChainResponse.found (txTransfer "SND" "RCV" b a)))).1 =
      { isValid := true, error := none, amount := some a, asset := some "native",
        senderAddress := some (findSender "RCV" ["SND", "RCV"] [b, 0] [b - a, a]),
        receiverAddress := some "RCV", blockTime := none } := by
  have hidx : List.findIdx? (fun x => x == "RCV") ["SND", "RCV"] = some 1 := by rfl
  unfold validateOnBlockchain constOracle txTransfer
  simp [hidx]
  rw [if_neg (by omega)]

/-- The replay path of `validateSOLPayment`: a ledger hit at the lookup
snapshot (with a healthy lookup) yields the fixed 409 replay response —
which carries no prior usage record — bumps the counter on the commit-time
ledger, and performs no chain read. -/
theorem validateSOLPaymentAt_replay (R : String) (env : SolEnv) (o : SolChainOracle)
    (Ll Lc : Ledger) (hsig : Option String) (q : ℚ) (ep ipa ua : String)
    (hfal : headerFalsy hsig = false) (h1 : env.lookupFault = none)
    (hrf : env.replayRecordFault = false)
    (h3 : (lookupRecord Ll (hsig.getD "")).isSome = true) :
    validateSOLPaymentAt "production" R env o Ll Lc hsig q ep ipa ua =
      { outcome := SolOutcome.conflictReplay
          "Payment signature already used (replay attack prevented)",
        ledger := incrementUsage Lc (hsig.getD ""), chain := [] } := by
  unfold validateSOLPaymentAt
  simp [hfal, isSignatureUsed, h1, h3, recordReplayAttempt, hrf]

/-- Inversion of the accept path of `validateSOLPayment` (fault-free, not
in development mode): the signature header was present, the ledger missed
it, and the resulting ledger is the old one with one new row for the
signature whose `usage_count` is the schema default 1. -/
theorem validateSOLPayment_accept (R : String) (o : SolChainOracle) (L : Ledger)
    (hsig : Option String) (q : ℚ) (ep ipa ua : String)
    (h : (validateSOLPayment "production" R solNoFaults o L hsig q ep ipa
      ua).outcome.isAccept = true) :
    headerFalsy hsig = false ∧
    lookupRecord L (hsig.getD "") = none ∧
    ∃ row, (validateSOLPayment "production" R solNoFaults o L hsig q ep ipa ua).ledger =
      row :: L ∧ row.signature = hsig.getD "" ∧ row.usageCount = 1 := by
  by_cases hfal : headerFalsy hsig = true
  · exfalso
    unfold validateSOLPayment validateSOLPaymentAt at h
    simp [hfal, SolOutcome.isAccept] at h
  · have hfal2 : headerFalsy hsig = false := by revert hfal; cases headerFalsy hsig <;> simp
    rcases hlk : lookupRecord L (hsig.getD "") with _ | r
    · rcases hf : (solLookup o).1 with _ | tx
      · exfalso
        unfold validateSOLPayment validateSOLPaymentAt at h
        simp [hfal2, isSignatureUsed, solNoFaults, hlk, hf, SolOutcome.isAccept] at h
      · by_cases hm : (!tx.hasMeta || tx.metaErr) = true
        · exfalso
          unfold validateSOLPayment validateSOLPaymentAt at h
          simp [hfal2, isSignatureUsed, solNoFaults, hlk, hf, hm, SolOutcome.isAccept] at h
        · have hm2 : (!tx.hasMeta || tx.metaErr) = false := by
            revert hm; cases hx : (!tx.hasMeta || tx.metaErr) <;> simp
          rcases hix : tx.accounts.findIdx? (fun a => a == R) with _ | i
          · exfalso
            unfold validateSOLPayment validateSOLPaymentAt at h
            simp [hfal2, isSignatureUsed, solNoFaults, hlk, hf, hm2, hix,
              SolOutcome.isAccept] at h
          · by_cases hlt : mkRat (tx.postBalances[i]?.getD 0 - tx.preBalances[i]?.getD 0)
                1000000000 < q
            · exfalso
              unfold validateSOLPayment validateSOLPaymentAt at h
              simp [hfal2, isSignatureUsed, solNoFaults, hlk, hf, hm2, hix, hlt,
                SolOutcome.isAccept] at h
            · refine ⟨hfal2, rfl, ?_⟩
              unfold validateSOLPayment validateSOLPaymentAt simpleRecordPayment
              simp [hfal2, isSignatureUsed, solNoFaults, hlk, hf, hm2, hix, hlt]
    · exfalso
      unfold validateSOLPayment validateSOLPaymentAt at h
      simp [hfal2, isSignatureUsed, solNoFaults, hlk, SolOutcome.isAccept] at h

/-- `recordReplayAttempt` never lowers a usage count. -/
theorem countsMono_recordReplayAttempt (f : Bool) (L : Ledger) (s : String) :
    countsMono L (recordReplayAttempt f L s) := by
  unfold recordReplayAttempt
  split
  · exact countsMono_refl L
  · exact countsMono_incrementUsage L s

/-- `SimplePaymentTracker.recordPayment` never lowers a usage count. -/
theorem countsMono_simpleRecordPayment (f : Bool) (L : Ledger) (s : String) (amt : ℚ)
    (c i u e : String) : countsMono L (simpleRecordPayment f L s amt c i u e) := by
  unfold simpleRecordPayment
  split
  · exact countsMono_refl L
  · split
    · exact countsMono_refl L
    · exact countsMono_cons L _

/-- One `validateSOLPayment` call never lowers the usage count of any
existing row. -/
theorem validateSOLPaymentAt_countsMono (nodeEnv R : String) (env : SolEnv)
    (o : SolChainOracle) (Ll Lc : Ledger) (hsig : Option String) (q : ℚ)
    (ep ipa ua : String) :
    countsMono Lc (validateSOLPaymentAt nodeEnv R env o Ll Lc hsig q ep ipa ua).ledger := by
  unfold validateSOLPaymentAt
  dsimp only
  repeat' split
  all_goals first
    | exact countsMono_refl Lc
    | exact countsMono_recordReplayAttempt _ _ _
    | exact countsMono_simpleRecordPayment _ _ _ _ _ _ _ _

/-- `k` sequential presentations of the same signature through
`validateSOLPayment`, threading the ledger. -/
def solPresentTimes (nodeEnv R : String) (env : SolEnv) (o : SolChainOracle)
    (ledger : Ledger) (hsig : Option String) (q : ℚ) (ep ipa ua : String) : Nat → Ledger
  | 0 => ledger
  | k + 1 => (validateSOLPayment nodeEnv R env o
      (solPresentTimes nodeEnv R env o ledger hsig q ep ipa ua k) hsig q ep ipa ua).ledger

/-- The `txTransfer` of `a` lamports as seen by `validateSOLPayment`:
found at the first `confirmed` query. -/
def solOracleTransfer (b a : Int) : SolChainOracle :=
  { confirmedResp := fun _ => some (txTransfer "SND" "RCV" b a),
    finalizedResp := fun _ => none }

/-- A previously accepted row used by witnesses. -/
def rowFixture : PaymentRecord :=
  { signature := "SIGW", network := "solana", amount := 200000000, asset := "native",
    senderAddress := "SND", receiverAddress := "RCV", apiEndpoint := "/api",
    blockTime := none, firstUsedAt := 3, usageCount := 1, ipAddress := none,
    userAgent := none }

/-- A ledger row for the already-used signature `SIGC4`. -/
def c4Row : PaymentRecord :=
  { signature := "SIGC4", network := "solana", amount := 200000000, asset := "SOL",
    senderAddress := "SND", receiverAddress := "RCV", apiEndpoint := "/api",
    blockTime := none, firstUsedAt := 0, usageCount := 1, ipAddress := none,
    userAgent := none }

/-- The same prior use but with a different stored usage count. -/
def c4RowReused : PaymentRecord := { c4Row with usageCount := 5 }

/-- C4 counterexample: on the wired `validateSOLPayment` path the replay
rejection is the fixed 409 message and carries no prior usage record —
ledgers whose stored prior record differs (usage count 1 vs 5) produce the
identical response.  This falsifies the claim's "returns ... and the prior
usage record" on the cited path. -/
theorem C4_counterexample :
    (validateSOLPayment "production" "RCV" solNoFaults solOracleValid [c4Row]
      (some "SIGC4") (mkRat 1 10) "/api" "ip" "ua").outcome =
      SolOutcome.conflictReplay "Payment signature already used (replay attack prevented)" ∧
    (validateSOLPayment "production" "RCV" solNoFaults solOracleValid [c4RowReused]
      (some "SIGC4") (mkRat 1 10) "/api" "ip" "ua").outcome =
    (validateSOLPayment "production" "RCV" solNoFaults solOracleValid [c4Row]
      (some "SIGC4") (mkRat 1 10) "/api" "ip" "ua").outcome ∧
    c4RowReused.usageCount ≠ c4Row.usageCount :=
  ⟨rfl, rfl, by decide⟩

/-- C4 amended: for every signature already present in the ledger both
paths take the replay path — best-effort counter increment, rejection, and
no chain read.  The `PaymentTracker` path returns the `AlreadyUsed`
rejection with `isFirstUse = false` and the prior usage record; the wired
`validateSOLPayment` path returns the fixed 409 replay response without
the prior usage record. -/
theorem C4_amended :
    (∀ (env : StoreEnv) (R : String) (o : ChainOracle) (L : Ledger) (sig : String)
        (e : Int) (asset ep : String) (now : Nat) (ip ua : Option String)
        (r : PaymentRecord),
      env.lookupFault = none → env.incrementFault = none → lookupRecord L sig = some r →
      validatePayment env R o L sig e asset ep now ip ua =
        { result := replayResult r, ledger := incrementUsage L sig, chain := [] }) ∧
    (∀ (R : String) (env : SolEnv) (o : SolChainOracle) (L : Ledger)
        (hsig : Option String) (q : ℚ) (ep ipa ua : String),
      headerFalsy hsig = false → env.lookupFault = none → env.replayRecordFault = false →
      (lookupRecord L (hsig.getD "")).isSome = true →
      validateSOLPayment "production" R env o L hsig q ep ipa ua =
        { outcome := SolOutcome.conflictReplay
            "Payment signature already used (replay attack prevented)",
          ledger := incrementUsage L (hsig.getD ""), chain := [] }) := by
  constructor
  · intro env R o L sig e asset ep now ip ua r h1 h2 h3
    exact validatePaymentAt_replay env R o L L sig e asset ep now ip ua r h1 h2 h3
  · intro R env o L hsig q ep ipa ua hfal h1 hrf h3
    exact validateSOLPaymentAt_replay R env o L L hsig q ep ipa ua hfal h1 hrf h3

/-- Witness for the amended C4 on concrete one-row ledgers for both
paths. -/
theorem C4_amended_witness :
    (validatePayment noFaults "RCV" oracleValid [rowFixture] "SIGW" 100000000 "native"
        "/api" 9 none none =
      { result := replayResult rowFixture, ledger := incrementUsage [rowFixture] "SIGW",
        chain := [] }) ∧
    (validateSOLPayment "production" "RCV" solNoFaults solOracleValid [c4Row]
        (some "SIGC4") (mkRat 1 10) "/api" "ip" "ua" =
      { outcome := SolOutcome.conflictReplay
          "Payment signature already used (replay attack prevented)",
        ledger := incrementUsage [c4Row] "SIGC4", chain := [] }) :=
  ⟨C4_amended.1 noFaults "RCV" oracleValid [rowFixture] "SIGW" 100000000 "native" "/api"
      9 none none rowFixture rfl rfl rfl,
   C4_amended.2 "RCV" solNoFaults solOracleValid [c4Row] (some "SIGC4") (mkRat 1 10)
      "/api" "ip" "ua" rfl rfl rfl (by decide)⟩

/-- C9: with the development-mode flag set (`NODE_ENV=development`), both
middlewares report the request as verified (`next()`), for any headers and
any signature including an absent or empty one, with no chain read and no
ledger change. -/
theorem C9_dev_bypass :
    (∀ (R : String) (env : StoreEnv) (o : ChainOracle) (L : Ledger) (q : ℚ) (ep : String)
        (hs : GateHeaders) (now : Nat) (ip ua : Option String),
      validatePaymentMiddleware "development" R env o L q ep hs now ip ua =
        { outcome := GateOutcome.nextDev, ledger := L, chain := [] }) ∧
    (∀ (R : String) (env : SolEnv) (o : SolChainOracle) (L : Ledger) (hsig : Option String)
        (q : ℚ) (ep ipa ua : String),
      validateSOLPayment "development" R env o L hsig q ep ipa ua =
        { outcome := SolOutcome.nextDev, ledger := L, chain := [] }) := by
  constructor <;> intros <;> rfl

/-- C6: for a fresh signature whose transaction transfers `a > 0` lamports
to the receiver, the accept/reject decision on the amount is the `>=`
comparison on both paths.  `PaymentTracker.validatePayment` is valid
exactly when `expectedAmount ≤ a` over integers (so `a = expectedAmount`
and any `a > expectedAmount` are accepted) and any `a < expectedAmount` —
in particular `a = expectedAmount - 1` — is rejected with the
insufficient-amount error; the wired `validateSOLPayment` accepts exactly
when `expectedAmountSol ≤ (a lamports in SOL)` and rejects smaller
transfers with its insufficient-amount response. -/
theorem C6_amount_ge (e a b : Int) (q : ℚ) (sig ep : String) (now : Nat) (ha : 0 < a) :
    ((validatePayment noFaults "RCV"
        (constOracle (ChainResponse.found (txTransfer "SND" "RCV" b a))) [] sig e "native"
        ep now none none).result.isValid = decide (e ≤ a)) ∧
    (a < e → (validatePayment noFaults "RCV"
        (constOracle (ChainResponse.found (txTransfer "SND" "RCV" b a))) [] sig e "native"
        ep now none none).result.error =
      some ("Insufficient payment amount. Expected: " ++ toString e ++ ", Got: " ++
        toString a)) ∧
    (e ≤ a → (validatePayment noFaults "RCV"
        (constOracle (ChainResponse.found (txTransfer "SND" "RCV" b a))) [] sig e "native"
        ep now none none).result.isFirstUse = true) ∧
    ((validateSOLPayment "production" "RCV" solNoFaults (solOracleTransfer b a) []
        (some "SIGS") q "/api" "ip" "ua").outcome.isAccept =
      decide (q ≤ mkRat a 1000000000)) ∧
    (mkRat a 1000000000 < q →
      (validateSOLPayment "production" "RCV" solNoFaults (solOracleTransfer b a) []
        (some "SIGS") q "/api" "ip" "ua").outcome =
      SolOutcome.badRequest ("Insufficient payment amount. Expected " ++ toString q ++
        " SOL, received " ++ toString (mkRat a 1000000000) ++ " SOL")) := by
  have hPT : ((validatePayment noFaults "RCV"
        (constOracle (ChainResponse.found (txTransfer "SND" "RCV" b a))) [] sig e "native"
        ep now none none).result.isValid = decide (e ≤ a)) ∧
      (a < e → (validatePayment noFaults "RCV"
        (constOracle (ChainResponse.found (txTransfer "SND" "RCV" b a))) [] sig e "native"
        ep now none none).result.error =
        some ("Insufficient payment amount. Expected: " ++ toString e ++ ", Got: " ++
          toString a)) ∧
      (e ≤ a → (validatePayment noFaults "RCV"
        (constOracle (ChainResponse.found (txTransfer "SND" "RCV" b a))) [] sig e "native"
        ep now none none).result.isFirstUse = true) := by
    have hchain := validateOnBlockchain_txTransfer b a ha
    by_cases hae : a < e
    · have hv : verifyPaymentDetails (validateOnBlockchain "RCV"
          (constOracle (ChainResponse.found (txTransfer "SND" "RCV" b a)))).1 e "native" =
          { isValid := false,
            error := some ("Insufficient payment amount. Expected: " ++ toString e ++
              ", Got: " ++ toString a) } := by
        unfold verifyPaymentDetails
        rw [hchain]
        simp [optIntStr, hae]
      rw [hchain] at hv
      unfold validatePayment validatePaymentAt
      simp [noFaults, lookupRecord, hchain, hv]
      omega
    · have hv : (verifyPaymentDetails (validateOnBlockchain "RCV"
          (constOracle (ChainResponse.found (txTransfer "SND" "RCV" b a)))).1 e
          "native").isValid = true := by
        unfold verifyPaymentDetails
        rw [hchain]
        simp [optIntStr, hae]
      rw [hchain] at hv
      unfold validatePayment validatePaymentAt
      simp [noFaults, lookupRecord, hchain, hv]
      omega
  have hidx2 : List.findIdx? (fun x => x == "RCV") ["SND", "RCV"] = some 1 := rfl
  by_cases hlt : mkRat a 1000000000 < q
  · have hev : validateSOLPayment "production" "RCV" solNoFaults (solOracleTransfer b a)
        [] (some "SIGS") q "/api" "ip" "ua" =
        { outcome := SolOutcome.badRequest ("Insufficient payment amount. Expected " ++
            toString q ++ " SOL, received " ++ toString (mkRat a 1000000000) ++ " SOL"),
          ledger := [], chain := [(1, Commitment.confirmed)] } := by
      unfold validateSOLPayment validateSOLPaymentAt
      simp [solOracleTransfer, solLookup, solTxSearch, txTransfer, isSignatureUsed,
        solNoFaults, lookupRecord, headerFalsy, hidx2, hlt]
    refine ⟨hPT.1, hPT.2.1, hPT.2.2, ?_, fun _ => by rw [hev]⟩
    rw [hev]
    simp [SolOutcome.isAccept, not_le.mpr hlt]
  · have hle : q ≤ mkRat a 1000000000 := not_lt.mp hlt
    have hev : (validateSOLPayment "production" "RCV" solNoFaults (solOracleTransfer b a)
        [] (some "SIGS") q "/api" "ip" "ua").outcome =
        SolOutcome.nextVerified (mkRat a 1000000000) := by
      unfold validateSOLPayment validateSOLPaymentAt
      simp [solOracleTransfer, solLookup, solTxSearch, txTransfer, isSignatureUsed,
        solNoFaults, lookupRecord, headerFalsy, hidx2, hlt]
    refine ⟨hPT.1, hPT.2.1, hPT.2.2, ?_, fun hc => absurd hc hlt⟩
    rw [hev]
    simp [SolOutcome.isAccept, hle]

/-- Witness for C6: expected 100000 lamports (and the same amount in SOL),
transfer of 150000 lamports. -/
theorem C6_amount_ge_witness :
    ((validatePayment noFaults "RCV"
        (constOracle (ChainResponse.found (txTransfer "SND" "RCV" 1000000000 150000))) []
        "SIGC6" 100000 "native" "/api" 0 none none).result.isValid =
      decide ((100000 : Int) ≤ 150000)) ∧
    ((150000 : Int) < 100000 → (validatePayment noFaults "RCV"
        (constOracle (ChainResponse.found (txTransfer "SND" "RCV" 1000000000 150000))) []
        "SIGC6" 100000 "native" "/api" 0 none none).result.error =
      some ("Insufficient payment amount. Expected: " ++ toString (100000 : Int) ++
        ", Got: " ++ toString (150000 : Int))) ∧
    ((100000 : Int) ≤ 150000 → (validatePayment noFaults "RCV"
        (constOracle (ChainResponse.found (txTransfer "SND" "RCV" 1000000000 150000))) []
        "SIGC6" 100000 "native" "/api" 0 none none).result.isFirstUse = true) ∧
    ((validateSOLPayment "production" "RCV" solNoFaults
        (solOracleTransfer 1000000000 150000) [] (some "SIGS") (mkRat 100000 1000000000)
        "/api" "ip" "ua").outcome.isAccept =
      decide ((mkRat 100000 1000000000 : ℚ) ≤ mkRat 150000 1000000000)) ∧
    ((mkRat 150000 1000000000 : ℚ) < mkRat 100000 1000000000 →
      (validateSOLPayment "production" "RCV" solNoFaults
        (solOracleTransfer 1000000000 150000) [] (some "SIGS") (mkRat 100000 1000000000)
        "/api" "ip" "ua").outcome =
      SolOutcome.badRequest ("Insufficient payment amount. Expected " ++
        toString (mkRat 100000 1000000000 : ℚ) ++ " SOL, received " ++
        toString (mkRat 150000 1000000000 : ℚ) ++ " SOL")) :=
  C6_amount_ge 100000 150000 1000000000 (mkRat 100000 1000000000) "SIGC6" "/api" 0
    (by decide)

/-- C7: the stored `usageCount` equals the number of presentations on both
paths: after a first accepted presentation and `k` further presentations of
the same signature the stored row has `usageCount = k + 1` (created as 1,
bumped by exactly 1 per presentation) — through
`PaymentTracker.validatePayment` as well as through the wired
`validateSOLPayment` with `SimplePaymentTracker` — and no operation of
either path (nor the raw counter update itself) ever lowers the
`usageCount` of any existing row. -/
theorem C7_usage_count (R : String) (o : ChainOracle) (so : SolChainOracle)
    (sig : String) (hsig : Option String) (e : Int) (q : ℚ)
    (asset ep sep ipa ua : String) (now : Nat)
    (hacc1 : (validatePayment noFaults R o [] sig e asset ep now none none).result.isValid
      = true)
    (hacc2 : (validateSOLPayment "production" R solNoFaults so [] hsig q sep ipa
      ua).outcome.isAccept = true) :
    (∀ k : Nat, ∃ r, lookupRecord
        (presentTimes noFaults R o [] sig e asset ep now (k + 1)) sig = some r ∧
        r.usageCount = k + 1) ∧
    (∀ k : Nat, ∃ r, lookupRecord
        (solPresentTimes "production" R solNoFaults so [] hsig q sep ipa ua (k + 1))
        (hsig.getD "") = some r ∧ r.usageCount = k + 1) ∧
    (∀ (env : StoreEnv) (R2 : String) (o2 : ChainOracle) (L : Ledger) (sig2 : String)
        (e2 : Int) (asset2 ep2 : String) (now2 : Nat) (ip ua2 : Option String),
      countsMono L (validatePayment env R2 o2 L sig2 e2 asset2 ep2 now2 ip ua2).ledger) ∧
    (∀ (nodeEnv R2 : String) (env : SolEnv) (o2 : SolChainOracle) (L : Ledger)
        (hsig2 : Option String) (q2 : ℚ) (ep2 ipa2 ua2 : String),
      countsMono L (validateSOLPayment nodeEnv R2 env o2 L hsig2 q2 ep2 ipa2 ua2).ledger) ∧
    (∀ (L : Ledger) (s : String), countsMono L (incrementUsage L s)) := by
  refine ⟨?_, ?_, ?_, ?_, ?_⟩
  · intro k
    induction k with
    | zero =>
      obtain ⟨-, -, -, -, -, -, row, hled, hsigr, hcount⟩ :=
        validatePaymentAt_accept noFaults R o [] [] sig e asset ep now none none hacc1
      refine ⟨row, ?_, hcount⟩
      have hunf : presentTimes noFaults R o [] sig e asset ep now 1 =
          (validatePaymentAt noFaults R o [] [] sig e asset ep now none none).ledger := rfl
      rw [hunf, hled]
      simp [lookupRecord, hsigr]
    | succ n ih =>
      obtain ⟨r, hfind, hcount⟩ := ih
      have hstep := validatePaymentAt_replay noFaults R o
        (presentTimes noFaults R o [] sig e asset ep now (n + 1))
        (presentTimes noFaults R o [] sig e asset ep now (n + 1))
        sig e asset ep now none none r rfl rfl hfind
      have hunf : presentTimes noFaults R o [] sig e asset ep now (n + 2) =
          (validatePaymentAt noFaults R o
            (presentTimes noFaults R o [] sig e asset ep now (n + 1))
            (presentTimes noFaults R o [] sig e asset ep now (n + 1))
            sig e asset ep now none none).ledger := rfl
      refine ⟨{ r with usageCount := r.usageCount + 1 }, ?_, by simp [hcount]⟩
      rw [hunf, hstep]
      rw [lookupRecord_incrementUsage, hfind]
      rfl
  · obtain ⟨hfal, hlk0, row0, hled0, hsig0, hcnt0⟩ :=
      validateSOLPayment_accept R so [] hsig q sep ipa ua hacc2
    intro k
    induction k with
    | zero =>
      refine ⟨row0, ?_, hcnt0⟩
      have hunf : solPresentTimes "production" R solNoFaults so [] hsig q sep ipa ua 1 =
          (validateSOLPayment "production" R solNoFaults so [] hsig q sep ipa ua).ledger :=
        rfl
      rw [hunf, hled0]
      simp [lookupRecord, hsig0]
    | succ n ih =>
      obtain ⟨r, hfind, hcount⟩ := ih
      have hstep := validateSOLPaymentAt_replay R solNoFaults so
        (solPresentTimes "production" R solNoFaults so [] hsig q sep ipa ua (n + 1))
        (solPresentTimes "production" R solNoFaults so [] hsig q sep ipa ua (n + 1))
        hsig q sep ipa ua hfal rfl rfl (by rw [hfind]; rfl)
      have hunf : solPresentTimes "production" R solNoFaults so [] hsig q sep ipa ua
          (n + 2) =
          (validateSOLPaymentAt "production" R solNoFaults so
            (solPresentTimes "production" R solNoFaults so [] hsig q sep ipa ua (n + 1))
            (solPresentTimes "production" R solNoFaults so [] hsig q sep ipa ua (n + 1))
            hsig q sep ipa ua).ledger := rfl
      refine ⟨{ r with usageCount := r.usageCount + 1 }, ?_, by simp [hcount]⟩
      rw [hunf, hstep]
      rw [lookupRecord_incrementUsage, hfind]
      rfl
  · intro env R2 o2 L sig2 e2 asset2 ep2 now2 ip ua2
    rcases validatePaymentAt_ledger_cases env R2 o2 L L sig2 e2 asset2 ep2 now2 ip ua2
      with hc | hc | ⟨row, hc⟩
    · show countsMono L (validatePaymentAt env R2 o2 L L sig2 e2 asset2 ep2 now2
        ip ua2).ledger
      rw [hc]; exact countsMono_refl L
    · show countsMono L (validatePaymentAt env R2 o2 L L sig2 e2 asset2 ep2 now2
        ip ua2).ledger
      rw [hc]; exact countsMono_incrementUsage L sig2
    · show countsMono L (validatePaymentAt env R2 o2 L L sig2 e2 asset2 ep2 now2
        ip ua2).ledger
      rw [hc]; exact countsMono_cons L row
  · intro nodeEnv R2 env o2 L hsig2 q2 ep2 ipa2 ua2
    exact validateSOLPaymentAt_countsMono nodeEnv R2 env o2 L L hsig2 q2 ep2 ipa2 ua2
  · intro L s
    exact countsMono_incrementUsage L s

/-- Witness for C7 on the concrete valid transfer fixture, for both
paths. -/
theorem C7_usage_count_witness :
    (∀ k : Nat, ∃ r, lookupRecord
        (presentTimes noFaults "RCV" oracleValid [] "SIG7" 100000000 "native" "/api" 0
          (k + 1)) "SIG7" = some r ∧ r.usageCount = k + 1) ∧
    (∀ k : Nat, ∃ r, lookupRecord
        (solPresentTimes "production" "RCV" solNoFaults solOracleValid []
          (some "SIG7S") (mkRat 1 10) "/api" "ip" "ua" (k + 1))
        ((some "SIG7S").getD "") = some r ∧ r.usageCount = k + 1) ∧
    (∀ (env : StoreEnv) (R2 : String) (o2 : ChainOracle) (L : Ledger) (sig2 : String)
        (e2 : Int) (asset2 ep2 : String) (now2 : Nat) (ip ua2 : Option String),
      countsMono L (validatePayment env R2 o2 L sig2 e2 asset2 ep2 now2 ip ua2).ledger) ∧
    (∀ (nodeEnv R2 : String) (env : SolEnv) (o2 : SolChainOracle) (L : Ledger)
        (hsig2 : Option String) (q2 : ℚ) (ep2 ipa2 ua2 : String),
      countsMono L (validateSOLPayment nodeEnv R2 env o2 L hsig2 q2 ep2 ipa2 ua2).ledger) ∧
    (∀ (L : Ledger) (s : String), countsMono L (incrementUsage L s)) :=
  C7_usage_count "RCV" oracleValid solOracleValid "SIG7" (some "SIG7S") 100000000
    (mkRat 1 10) "native" "/api" "/api" "ip" "ua" 0 (by decide) (by decide)

/-- A storage environment whose lookup query throws. -/
def envDown : StoreEnv :=
  { lookupFault := some "connection terminated", incrementFault := none,
    insertFault := none }

/-- A storage environment whose counter-update query throws. -/
def envIncDown : StoreEnv :=
  { lookupFault := none, incrementFault := some "increment failed", insertFault := none }

/-- Concrete payment headers naming the fixture row's signature. -/
def hdrFix : GateHeaders :=
  { signature := some "SIGW", network := some "solana", amount := some "1" }


/-- The winner of a two-request race on one fresh signature through
`validateSOLPayment`: schedule with both `isSignatureUsed` reads before
either commit. -/
def solRaceFirst : SolRun :=
  validateSOLPaymentAt "production" "RCV" solNoFaults solOracleValid [] [] (some "SIGA")
    (mkRat 1 10) "/api" "ip" "ua"

/-- The loser of the same race: its replay check read the empty ledger, its
commit runs after the winner inserted the row. -/
def solRaceSecond : SolRun :=
  validateSOLPaymentAt "production" "RCV" solNoFaults solOracleValid [] solRaceFirst.ledger
    (some "SIGA") (mkRat 1 10) "/api" "ip" "ua"

/-- C1 counterexample: in the `SimplePaymentTracker` path two concurrent
verifications of the same fresh valid signature are BOTH accepted — the
loser's duplicate-key insert failure is swallowed by
`SimplePaymentTracker.recordPayment` and the request proceeds, leaving the
ledger with the single winner row.  This falsifies "exactly one returns
Accepted and every other returns Rejected with isReplay=true". -/
theorem C1_counterexample :
    solRaceFirst.outcome.isAccept = true ∧ solRaceSecond.outcome.isAccept = true ∧
    solRaceSecond.ledger = solRaceFirst.ledger := by
  refine ⟨by decide, by decide, rfl⟩

/-- C1 amended: in the `PaymentTracker` path, under the race schedule where
both lookups precede both commits, the first committer is accepted (the
hypothesis) and the loser is not accepted: its `INSERT` hits the storage
UNIQUE constraint and the top-level `catch` returns the generic
`Payment validation failed: duplicate key ...` result with
`isFirstUse = false` (which the middleware shows as a replay), not the
`AlreadyUsed` replay outcome. -/
theorem C1_amended (R : String) (o : ChainOracle) (L0 : Ledger) (sig : String)
    (e : Int) (asset ep : String) (nowA nowB : Nat) (ipA uaA ipB uaB : Option String)
    (hA : (validatePaymentAt noFaults R o L0 L0 sig e asset ep nowA ipA uaA).result.isValid
      = true) :
    (validatePaymentAt noFaults R o L0
      (validatePaymentAt noFaults R o L0 L0 sig e asset ep nowA ipA uaA).ledger
      sig e asset ep nowB ipB uaB).result = catchFail duplicateKeyMsg ∧
    (catchFail duplicateKeyMsg).isValid = false ∧
    (catchFail duplicateKeyMsg).isFirstUse = false := by
  obtain ⟨-, -, hLl, -, hchain, hdet, row, hled, hsig, -⟩ :=
    validatePaymentAt_accept noFaults R o L0 L0 sig e asset ep nowA ipA uaA hA
  refine ⟨?_, rfl, rfl⟩
  rw [hled]
  have hdup : (lookupRecord (row :: L0) sig).isSome = true := by
    unfold lookupRecord
    rw [List.find?_cons_of_pos _ (by simp [hsig])]
    rfl
  unfold validatePaymentAt
  simp [noFaults, hLl, hchain, hdet, hdup]

/-- Witness for the amended C1 on the concrete valid-transfer fixture. -/
theorem C1_amended_witness :
    (validatePaymentAt noFaults "RCV" oracleValid []
      (validatePaymentAt noFaults "RCV" oracleValid [] [] "SIGB" 100000000 "native" "/api"
        0 none none).ledger
      "SIGB" 100000000 "native" "/api" 1 none none).result = catchFail duplicateKeyMsg ∧
    (catchFail duplicateKeyMsg).isValid = false ∧
    (catchFail duplicateKeyMsg).isFirstUse = false :=
  C1_amended "RCV" oracleValid [] "SIGB" 100000000 "native" "/api" 0 1 none none none none
    (by decide)

/-- Environment for the C2 counterexample: the replay-lookup `SELECT`
throws. -/
def c2Env : SolEnv :=
  { lookupFault := some "connection refused", replayRecordFault := false,
    recordFault := false, chainFault := none }

/-- A row recording a previous use of the signature `SIGC2`. -/
def c2Row : PaymentRecord :=
  { signature := "SIGC2", network := "solana", amount := 200000000, asset := "SOL",
    senderAddress := "SND", receiverAddress := "RCV", apiEndpoint := "/api",
    blockTime := none, firstUsedAt := 0, usageCount := 1, ipAddress := none,
    userAgent := none }

/-- C2 counterexample: in the `SimplePaymentTracker` path a storage failure
during the ledger lookup is swallowed (`isSignatureUsed` returns `false`,
"Allow in case of DB issues") and the request is Accepted — here even
though the signature was already present in the ledger.  This falsifies
"an infrastructure failure is never silently treated as a successful
payment". -/
theorem C2_counterexample :
    c2Env.lookupFault.isSome = true ∧
    (lookupRecord [c2Row] "SIGC2").isSome = true ∧
    (validateSOLPayment "production" "RCV" c2Env solOracleValid [c2Row] (some "SIGC2")
      (mkRat 1 10) "/api" "ip" "ua").outcome.isAccept = true := by decide

/-- C2 amended: the `PaymentTracker` path does fail closed — a lookup
fault, an insert fault, or an RPC error of the chain client each force a
non-valid (rejected) result. -/
theorem C2_amended (env : StoreEnv) (R : String) (o : ChainOracle) (L : Ledger)
    (sig : String) (e : Int) (asset ep : String) (now : Nat) (ip ua : Option String) :
    (env.lookupFault.isSome = true →
      (validatePayment env R o L sig e asset ep now ip ua).result.isValid = false) ∧
    (env.insertFault.isSome = true →
      (validatePayment env R o L sig e asset ep now ip ua).result.isValid = false) ∧
    (∀ m, o Commitment.confirmed = ChainResponse.rpcError m →
      (validatePayment env R o L sig e asset ep now ip ua).result.isValid = false) := by
  refine ⟨?_, ?_, ?_⟩
  · intro hf
    by_contra hv
    rw [Bool.not_eq_false] at hv
    obtain ⟨h1, -⟩ := validatePaymentAt_accept env R o L L sig e asset ep now ip ua hv
    rw [h1] at hf
    simp at hf
  · intro hf
    by_contra hv
    rw [Bool.not_eq_false] at hv
    obtain ⟨-, h2, -⟩ := validatePaymentAt_accept env R o L L sig e asset ep now ip ua hv
    rw [h2] at hf
    simp at hf
  · intro m hm
    by_contra hv
    rw [Bool.not_eq_false] at hv
    obtain ⟨-, -, -, -, hchain, -⟩ :=
      validatePaymentAt_accept env R o L L sig e asset ep now ip ua hv
    unfold validateOnBlockchain at hchain
    rw [hm] at hchain
    simp [chainInvalid] at hchain

/-- A storage environment whose `INSERT` fails for infrastructure
reasons. -/
def envInsertDown : StoreEnv :=
  { lookupFault := none, incrementFault := none, insertFault := some "insert failed" }

/-- A chain client that throws on every `getTransaction`. -/
def oracleRpcDown : ChainOracle := constOracle (ChainResponse.rpcError "timeout")

/-- Witness for the amended C2 at three concrete failure environments. -/
theorem C2_amended_witness :
    (validatePayment envDown "RCV" oracleValid [] "SIGD" 100000000 "native" "/api" 0
      none none).result.isValid = false ∧
    (validatePayment envInsertDown "RCV" oracleValid [] "SIGD" 100000000 "native" "/api" 0
      none none).result.isValid = false ∧
    (validatePayment noFaults "RCV" oracleRpcDown [] "SIGD" 100000000 "native" "/api" 0
      none none).result.isValid = false :=
  ⟨(C2_amended envDown "RCV" oracleValid [] "SIGD" 100000000 "native" "/api" 0
      none none).1 (by decide),
   (C2_amended envInsertDown "RCV" oracleValid [] "SIGD" 100000000 "native" "/api" 0
      none none).2.1 (by decide),
   (C2_amended noFaults "RCV" oracleRpcDown [] "SIGD" 100000000 "native" "/api" 0
      none none).2.2 "timeout" rfl⟩

/-- A row inserted by a concurrent request between the C3 run's replay
check and its commit. -/
def c3Row : PaymentRecord :=
  { signature := "SIGC3", network := "solana", amount := 200000000, asset := "SOL",
    senderAddress := "SND", receiverAddress := "RCV", apiEndpoint := "/api",
    blockTime := none, firstUsedAt := 0, usageCount := 1, ipAddress := none,
    userAgent := none }

/-- C3 counterexample: in the `SimplePaymentTracker` path a request whose
commit-time `INSERT` hits the duplicate-key violation (the row exists at
commit though the replay check missed) is ACCEPTED — `recordPayment`
swallows the error and `next()` runs, with the ledger unchanged.  This
falsifies "the outcome equals the replay outcome Rejected/AlreadyUsed". -/
theorem C3_counterexample :
    (lookupRecord [c3Row] "SIGC3").isSome = true ∧
    (validateSOLPaymentAt "production" "RCV" solNoFaults solOracleValid [] [c3Row]
      (some "SIGC3") (mkRat 1 10) "/api" "ip" "ua").outcome.isAccept = true ∧
    (validateSOLPaymentAt "production" "RCV" solNoFaults solOracleValid [] [c3Row]
      (some "SIGC3") (mkRat 1 10) "/api" "ip" "ua").ledger = [c3Row] := by
  refine ⟨by decide, by decide, rfl⟩

/-- C3 amended: in the `PaymentTracker` path a duplicate-key failure at the
Commit step yields the generic catch-all result (`Payment validation
failed: duplicate key ...`) with `isFirstUse = false` — so it is not
Accepted and the middleware classifies it as a replay — but it is NOT the
`LedgerCheck` replay outcome: the error message differs and no prior usage
record is attached. -/
theorem C3_amended (R : String) (o : ChainOracle) (Ll Lc : Ledger) (sig : String)
    (e : Int) (asset ep : String) (now : Nat) (ip ua : Option String)
    (hLl : lookupRecord Ll sig = none) (hLc : (lookupRecord Lc sig).isSome = true)
    (hchain : (validateOnBlockchain R o).1.isValid = true)
    (hdet : (verifyPaymentDetails (validateOnBlockchain R o).1 e asset).isValid = true) :
    (validatePaymentAt noFaults R o Ll Lc sig e asset ep now ip ua).result =
      catchFail duplicateKeyMsg ∧
    (validatePaymentAt noFaults R o Ll Lc sig e asset ep now ip ua).result.isFirstUse
      = false ∧
    ∀ r2, catchFail duplicateKeyMsg ≠ replayResult r2 := by
  have hres : (validatePaymentAt noFaults R o Ll Lc sig e asset ep now ip ua).result =
      catchFail duplicateKeyMsg := by
    unfold validatePaymentAt
    simp [noFaults, hLl, hchain, hdet, hLc]
  refine ⟨hres, by rw [hres]; rfl, ?_⟩
  intro r2 hEq
  have hmsg := congrArg PaymentValidationResult.error hEq
  simp [catchFail, replayResult, duplicateKeyMsg, alreadyUsedMsg] at hmsg

/-- Witness for the amended C3: fresh lookup snapshot, fixture row present
at commit time. -/
theorem C3_amended_witness :
    (validatePaymentAt noFaults "RCV" oracleValid [] [rowFixture] "SIGW" 100000000
      "native" "/api" 0 none none).result = catchFail duplicateKeyMsg ∧
    (validatePaymentAt noFaults "RCV" oracleValid [] [rowFixture] "SIGW" 100000000
      "native" "/api" 0 none none).result.isFirstUse = false ∧
    ∀ r2, catchFail duplicateKeyMsg ≠ replayResult r2 :=
  C3_amended "RCV" oracleValid [] [rowFixture] "SIGW" 100000000 "native" "/api" 0
    none none rfl (by decide) (by decide) (by decide)

/-- A successful transaction transferring exactly 1 lamport to the
receiver. -/
def txOneLamport : TxRecord := txTransfer "SND" "RCV" 10 1

/-- The 1-lamport transfer as seen by `validateSOLPayment`. -/
def solOracleOneLamport : SolChainOracle :=
  { confirmedResp := fun _ => some txOneLamport, finalizedResp := fun _ => none }

/-- The 1-lamport transfer as seen by `PaymentTracker`. -/
def oracleOneLamport : ChainOracle := constOracle (ChainResponse.found txOneLamport)

/-- Payment headers for the C5 counterexample. -/
def c5Headers : GateHeaders :=
  { signature := some "SIGC5", network := some "solana", amount := some "1" }

/-- C5 counterexample: for the same configured price (3/2000000000 SOL,
i.e. 1.5 lamports) and the same on-chain 1-lamport transfer, the two code
paths decide differently: `validateSOLPayment` compares rescaled SOL values
(`(postBalance - preBalance) / 1e9 < expectedAmountSol`) and rejects, while
`validatePaymentMiddleware` converts the price to integer lamports
(`BigInt(Math.floor(requiredAmountSOL * 1e9))` = 1) and accepts.  The
`validateSOLPayment` comparison is therefore not performed on the exact
integer smallest-unit representation, falsifying the claim. -/
theorem C5_counterexample :
    (validateSOLPayment "production" "RCV" solNoFaults solOracleOneLamport []
      (some "SIGC5") (mkRat 3 2000000000) "/api" "ip" "ua").outcome.isAccept = false ∧
    (validatePaymentMiddleware "production" "RCV" noFaults oracleOneLamport []
      (mkRat 3 2000000000) "/api" c5Headers 0 none none).outcome =
      GateOutcome.nextVerified "SIGC5" "solana" "1" := by
  constructor
  · decide
  · have hfloor : Int.floor ((mkRat 3 2000000000 : ℚ) * 1000000000) = 1 := by
      rw [Rat.mkRat_eq_div]
      norm_num
    unfold validatePaymentMiddleware
    simp [headerFalsy, c5Headers, hfloor]
    decide

/-- C5 amended: in the `PaymentTracker` path the amount decision of
`verifyPaymentDetails` is the exact integer comparison on lamports —
valid iff `expectedAmount ≤ amount` over `Int`, with no rescaling. -/
theorem C5_amended (t : BlockchainValidation) (e : Int) (h : t.asset = some "native") :
    (verifyPaymentDetails t e "native").isValid = decide (e ≤ t.amount.getD 0) := by
  unfold verifyPaymentDetails
  simp [h]
  by_cases hlt : t.amount.getD 0 < e
  · simp [hlt, show ¬(e ≤ t.amount.getD 0) by omega]
  · simp [hlt, show e ≤ t.amount.getD 0 by omega]

/-- Witness for the amended C5 on the concrete valid transfer. -/
theorem C5_amended_witness :
    (verifyPaymentDetails (validateOnBlockchain "RCV" oracleValid).1 100000000
      "native").isValid =
      decide ((100000000 : Int) ≤ (validateOnBlockchain "RCV" oracleValid).1.amount.getD 0) :=
  C5_amended (validateOnBlockchain "RCV" oracleValid).1 100000000 (by decide)

/-- A chain where the transaction is not yet visible at `confirmed` but is
available at `finalized`. -/
def oracleConfMissing : ChainOracle := fun c =>
  match c with
  | Commitment.confirmed => ChainResponse.missing
  | Commitment.finalized => ChainResponse.found txValid

/-- C8 counterexample: `PaymentTracker.validateOnBlockchain` performs a
single `confirmed`-level `getTransaction` and returns "Transaction not
found on blockchain" without ever querying `finalized` (the query trace is
`[confirmed]`) even though the finalized level has the transaction — no
finalized fallback and no retry, falsifying the claim for this chain-lookup
implementation. -/
theorem C8_counterexample :
    validateOnBlockchain "RCV" oracleConfMissing =
      (chainInvalid "Transaction not found on blockchain", [Commitment.confirmed]) ∧
    oracleConfMissing Commitment.finalized = ChainResponse.found txValid :=
  ⟨rfl, rfl⟩

/-- C8 amended: the retry loop of `validateSOLPayment` does follow the
claimed schedule: its query trace is a prefix of
`[(1,confirmed), (1,finalized), (2,confirmed), (2,finalized)]` (so at most
two rounds, never more), it starts with a `confirmed` query, `finalized`
is queried in a round only when that round's `confirmed` lookup was empty,
and NotFound is returned only after all four lookups came back empty. -/
theorem C8_amended (o : SolChainOracle) :
    (∃ rest, (solLookup o).2 ++ rest =
      [(1, Commitment.confirmed), (1, Commitment.finalized),
       (2, Commitment.confirmed), (2, Commitment.finalized)]) ∧
    ((solLookup o).2.head? = some (1, Commitment.confirmed)) ∧
    (∀ k, (k, Commitment.finalized) ∈ (solLookup o).2 → o.confirmedResp k = none) ∧
    ((solLookup o).1 = none →
      o.confirmedResp 1 = none ∧ o.finalizedResp 1 = none ∧
      o.confirmedResp 2 = none ∧ o.finalizedResp 2 = none) := by
  rcases h1 : o.confirmedResp 1 with _ | t1
  · rcases h2 : o.finalizedResp 1 with _ | t1f
    · rcases h3 : o.confirmedResp 2 with _ | t2
      · rcases h4 : o.finalizedResp 2 with _ | t2f
        · have hev : solLookup o = (none,
              [(1, Commitment.confirmed), (1, Commitment.finalized),
               (2, Commitment.confirmed), (2, Commitment.finalized)]) := by
            simp [solLookup, solTxSearch, h1, h2, h3, h4]
          rw [hev]
          refine ⟨⟨[], rfl⟩, rfl, ?_, fun _ => ⟨rfl, rfl, rfl, rfl⟩⟩
          intro k hk
          simp at hk
          rcases hk with hk | hk <;> subst hk
          · exact h1
          · exact h3
        · have hev : solLookup o = (some t2f,
              [(1, Commitment.confirmed), (1, Commitment.finalized),
               (2, Commitment.confirmed), (2, Commitment.finalized)]) := by
            simp [solLookup, solTxSearch, h1, h2, h3, h4]
          rw [hev]
          refine ⟨⟨[], rfl⟩, rfl, ?_, by intro h; simp at h⟩
          intro k hk
          simp at hk
          rcases hk with hk | hk <;> subst hk
          · exact h1
          · exact h3
      · have hev : solLookup o = (some t2,
            [(1, Commitment.confirmed), (1, Commitment.finalized),
             (2, Commitment.confirmed)]) := by
          simp [solLookup, solTxSearch, h1, h2, h3]
        rw [hev]
        refine ⟨⟨[(2, Commitment.finalized)], rfl⟩, rfl, ?_, by intro h; simp at h⟩
        intro k hk
        simp at hk
        subst hk
        exact h1
    · have hev : solLookup o = (some t1f,
          [(1, Commitment.confirmed), (1, Commitment.finalized)]) := by
        simp [solLookup, solTxSearch, h1, h2]
      rw [hev]
      refine ⟨⟨[(2, Commitment.confirmed), (2, Commitment.finalized)], rfl⟩, rfl, ?_,
        by intro h; simp at h⟩
      intro k hk
      simp at hk
      subst hk
      exact h1
  · have hev : solLookup o = (some t1, [(1, Commitment.confirmed)]) := by
      simp [solLookup, solTxSearch, h1]
    rw [hev]
    refine ⟨⟨[(1, Commitment.finalized), (2, Commitment.confirmed),
      (2, Commitment.finalized)], rfl⟩, rfl, ?_, by intro h; simp at h⟩
    intro k hk
    simp at hk

/-- A chain that never returns the transaction, at any level or attempt. -/
def solOracleEmpty : SolChainOracle :=
  { confirmedResp := fun _ => none, finalizedResp := fun _ => none }

/-- Witness for the amended C8 on the always-empty chain. -/
theorem C8_amended_witness :
    (∃ rest, (solLookup solOracleEmpty).2 ++ rest =
      [(1, Commitment.confirmed), (1, Commitment.finalized),
       (2, Commitment.confirmed), (2, Commitment.finalized)]) ∧
    ((solLookup solOracleEmpty).2.head? = some (1, Commitment.confirmed)) ∧
    (∀ k, (k, Commitment.finalized) ∈ (solLookup solOracleEmpty).2 →
      solOracleEmpty.confirmedResp k = none) ∧
    ((solLookup solOracleEmpty).1 = none →
      solOracleEmpty.confirmedResp 1 = none ∧ solOracleEmpty.finalizedResp 1 = none ∧
      solOracleEmpty.confirmedResp 2 = none ∧ solOracleEmpty.finalizedResp 2 = none) :=
  C8_amended solOracleEmpty

/-- C10 counterexample: a chain-client error is an internal exception, yet
it is caught inside `validateOnBlockchain` (not by `validatePayment`'s
top-level catch) and yields `isFirstUse = true`, which the middleware maps
to HTTP 400 with `is_replay_attack = false` — not a replay presentation.
This falsifies the claim's "for every verify call in which an internal
exception is thrown (for example a storage or chain-client error) ...
isFirstUse=false ... 409 ... is_replay_attack=true". -/
theorem C10_counterexample :
    (validatePayment noFaults "RCV" oracleRpcDown [] "SIGW" 100000000 "native" "/api" 0
      none none).result.isFirstUse = true ∧
    (validatePayment noFaults "RCV" oracleRpcDown [] "SIGW" 100000000 "native" "/api" 0
      none none).result.isValid = false ∧
    (validatePaymentMiddleware "production" "RCV" noFaults oracleRpcDown [] (mkRat 1 10)
      "/api" hdrFix 0 none none).outcome =
      GateOutcome.denied 400 false (some ("Blockchain validation failed: " ++ "timeout"))
        none := by
  refine ⟨by decide, by decide, by decide⟩

/-- C10 amended: every exception that reaches `validatePayment`'s top-level
catch — a storage lookup fault, an increment fault on the replay path, an
insert fault at commit, or the duplicate-key violation at commit — yields
`isValid = false` with `isFirstUse = false`; the middleware maps any such
result to HTTP 409 with `is_replay_attack = true`, exactly like a genuine
reuse (shown for the lookup fault and for a real replay); a chain-client
error, by contrast, is caught inside `validateOnBlockchain` and yields
`isFirstUse = true`, mapped to HTTP 400 with `is_replay_attack = false`. -/
theorem C10_amended :
    (∀ (env : StoreEnv) (R : String) (o : ChainOracle) (L : Ledger) (sig : String)
        (e : Int) (asset ep : String) (now : Nat) (ip ua : Option String) (m : String),
      env.lookupFault = some m →
        (validatePayment env R o L sig e asset ep now ip ua).result.isValid = false ∧
        (validatePayment env R o L sig e asset ep now ip ua).result.isFirstUse = false) ∧
    (∀ (env : StoreEnv) (R : String) (o : ChainOracle) (L : Ledger) (sig : String)
        (e : Int) (asset ep : String) (now : Nat) (ip ua : Option String)
        (r : PaymentRecord) (m : String),
      env.lookupFault = none → env.incrementFault = some m → lookupRecord L sig = some r →
        (validatePayment env R o L sig e asset ep now ip ua).result.isValid = false ∧
        (validatePayment env R o L sig e asset ep now ip ua).result.isFirstUse = false) ∧
    (∀ (env : StoreEnv) (R : String) (o : ChainOracle) (L : Ledger) (sig : String)
        (e : Int) (asset ep : String) (now : Nat) (ip ua : Option String) (m : String),
      env.lookupFault = none → env.insertFault = some m → lookupRecord L sig = none →
      (validateOnBlockchain R o).1.isValid = true →
      (verifyPaymentDetails (validateOnBlockchain R o).1 e asset).isValid = true →
        (validatePayment env R o L sig e asset ep now ip ua).result.isValid = false ∧
        (validatePayment env R o L sig e asset ep now ip ua).result.isFirstUse = false) ∧
    (∀ (R : String) (o : ChainOracle) (Ll Lc : Ledger) (sig : String) (e : Int)
        (asset ep : String) (now : Nat) (ip ua : Option String),
      lookupRecord Ll sig = none → (lookupRecord Lc sig).isSome = true →
      (validateOnBlockchain R o).1.isValid = true →
      (verifyPaymentDetails (validateOnBlockchain R o).1 e asset).isValid = true →
        (validatePaymentAt noFaults R o Ll Lc sig e asset ep now ip ua).result.isValid
          = false ∧
        (validatePaymentAt noFaults R o Ll Lc sig e asset ep now ip ua).result.isFirstUse
          = false) ∧
    (∀ (R : String) (env : StoreEnv) (o : ChainOracle) (L : Ledger) (q : ℚ) (ep : String)
        (hs : GateHeaders) (now : Nat) (ip ua : Option String) (m : String),
      env.lookupFault = some m →
      headerFalsy hs.signature = false → headerFalsy hs.network = false →
      headerFalsy hs.amount = false →
        (validatePaymentMiddleware "production" R env o L q ep hs now ip ua).outcome =
          GateOutcome.denied 409 true (some ("Payment validation failed: " ++ m)) none) ∧
    (∀ (R : String) (o : ChainOracle) (L : Ledger) (q : ℚ) (ep : String)
        (hs : GateHeaders) (now : Nat) (ip ua : Option String) (r : PaymentRecord),
      lookupRecord L (hs.signature.getD "") = some r →
      headerFalsy hs.signature = false → headerFalsy hs.network = false →
      headerFalsy hs.amount = false →
        (validatePaymentMiddleware "production" R noFaults o L q ep hs now ip ua).outcome =
          GateOutcome.denied 409 true (some alreadyUsedMsg) (some r)) ∧
    (∀ (R : String) (o : ChainOracle) (L : Ledger) (q : ℚ) (ep : String)
        (hs : GateHeaders) (now : Nat) (ip ua : Option String) (m : String),
      o Commitment.confirmed = ChainResponse.rpcError m →
      lookupRecord L (hs.signature.getD "") = none →
      headerFalsy hs.signature = false → headerFalsy hs.network = false →
      headerFalsy hs.amount = false →
        (validatePayment noFaults R o L (hs.signature.getD "")
          (Int.floor (q * 1000000000)) "native" ep now ip ua).result.isFirstUse = true ∧
        (validatePaymentMiddleware "production" R noFaults o L q ep hs now ip ua).outcome =
          GateOutcome.denied 400 false
            (some ("Blockchain validation failed: " ++ m)) none) := by
  refine ⟨?_, ?_, ?_, ?_, ?_, ?_, ?_⟩
  · intro env R o L sig e asset ep now ip ua m hm
    unfold validatePayment validatePaymentAt
    simp [hm, catchFail]
  · intro env R o L sig e asset ep now ip ua r m h1 h2 h3
    unfold validatePayment validatePaymentAt
    simp [h1, h2, h3, catchFail]
  · intro env R o L sig e asset ep now ip ua m h1 h2 h3 hch hdet
    unfold validatePayment validatePaymentAt
    simp [h1, h2, h3, hch, hdet, catchFail]
  · intro R o Ll Lc sig e asset ep now ip ua hLl hLc hch hdet
    unfold validatePaymentAt
    simp [noFaults, hLl, hLc, hch, hdet, catchFail]
  · intro R env o L q ep hs now ip ua m hm h1 h2 h3
    unfold validatePaymentMiddleware
    simp only [h1, h2, h3]
    unfold validatePayment validatePaymentAt
    simp [hm, catchFail]
  · intro R o L q ep hs now ip ua r hr h1 h2 h3
    have hrep : validatePayment noFaults R o L (hs.signature.getD "")
        (Int.floor (q * 1000000000)) "native" ep now ip ua =
        { result := replayResult r, ledger := incrementUsage L (hs.signature.getD ""),
          chain := [] } :=
      validatePaymentAt_replay noFaults R o L L (hs.signature.getD "")
        (Int.floor (q * 1000000000)) "native" ep now ip ua r rfl rfl hr
    unfold validatePaymentMiddleware
    simp only [h1, h2, h3]
    simp [hrep, replayResult]
  · intro R o L q ep hs now ip ua m hm hlk h1 h2 h3
    have hch : validateOnBlockchain R o =
        (chainInvalid ("Blockchain validation failed: " ++ m), [Commitment.confirmed]) := by
      unfold validateOnBlockchain
      rw [hm]
    have hres : validatePayment noFaults R o L (hs.signature.getD "")
        (Int.floor (q * 1000000000)) "native" ep now ip ua =
        { result :=
            { isValid := false, isFirstUse := true,
              error := some ("Blockchain validation failed: " ++ m),
              paymentRecord := none },
          ledger := L, chain := [Commitment.confirmed] } := by
      unfold validatePayment validatePaymentAt
      simp [noFaults, hlk, hch, chainInvalid]
    constructor
    · rw [hres]
    · unfold validatePaymentMiddleware
      simp only [h1, h2, h3]
      simp [hres]

/-- Witness for the amended C10: each catch-all exception at a concrete
input (lookup fault, increment fault during a replay, insert fault,
commit-time duplicate key), the two 409 mappings, and the contrasting
chain-error 400. -/
theorem C10_amended_witness :
    ((validatePayment envDown "RCV" oracleValid [] "SIGW" 100000000 "native" "/api" 0
        none none).result.isValid = false ∧
      (validatePayment envDown "RCV" oracleValid [] "SIGW" 100000000 "native" "/api" 0
        none none).result.isFirstUse = false) ∧
    ((validatePayment envIncDown "RCV" oracleValid [rowFixture] "SIGW" 100000000 "native"
        "/api" 0 none none).result.isValid = false ∧
      (validatePayment envIncDown "RCV" oracleValid [rowFixture] "SIGW" 100000000 "native"
        "/api" 0 none none).result.isFirstUse = false) ∧
    ((validatePayment envInsertDown "RCV" oracleValid [] "SIGW" 100000000 "native" "/api"
        0 none none).result.isValid = false ∧
      (validatePayment envInsertDown "RCV" oracleValid [] "SIGW" 100000000 "native" "/api"
        0 none none).result.isFirstUse = false) ∧
    ((validatePaymentAt noFaults "RCV" oracleValid [] [rowFixture] "SIGW" 100000000
        "native" "/api" 0 none none).result.isValid = false ∧
      (validatePaymentAt noFaults "RCV" oracleValid [] [rowFixture] "SIGW" 100000000
        "native" "/api" 0 none none).result.isFirstUse = false) ∧
    ((validatePaymentMiddleware "production" "RCV" envDown oracleValid [] (mkRat 1 10)
        "/api" hdrFix 0 none none).outcome =
      GateOutcome.denied 409 true
        (some ("Payment validation failed: " ++ "connection terminated")) none) ∧
    ((validatePaymentMiddleware "production" "RCV" noFaults oracleValid [rowFixture]
        (mkRat 1 10) "/api" hdrFix 0 none none).outcome =
      GateOutcome.denied 409 true (some alreadyUsedMsg) (some rowFixture)) ∧
    ((validatePayment noFaults "RCV" oracleRpcDown [] (hdrFix.signature.getD "")
        (Int.floor ((mkRat 1 10 : ℚ) * 1000000000)) "native" "/api" 0 none
        none).result.isFirstUse = true ∧
      (validatePaymentMiddleware "production" "RCV" noFaults oracleRpcDown [] (mkRat 1 10)
        "/api" hdrFix 0 none none).outcome =
      GateOutcome.denied 400 false
        (some ("Blockchain validation failed: " ++ "timeout")) none) :=
  ⟨C10_amended.1 envDown "RCV" oracleValid [] "SIGW" 100000000 "native" "/api" 0 none
      none "connection terminated" rfl,
   C10_amended.2.1 envIncDown "RCV" oracleValid [rowFixture] "SIGW" 100000000 "native"
      "/api" 0 none none rowFixture "increment failed" rfl rfl rfl,
   C10_amended.2.2.1 envInsertDown "RCV" oracleValid [] "SIGW" 100000000 "native" "/api"
      0 none none "insert failed" rfl rfl rfl (by decide) (by decide),
   C10_amended.2.2.2.1 "RCV" oracleValid [] [rowFixture] "SIGW" 100000000 "native" "/api"
      0 none none rfl (by decide) (by decide) (by decide),
   C10_amended.2.2.2.2.1 "RCV" envDown oracleValid [] (mkRat 1 10) "/api" hdrFix 0 none
      none "connection terminated" rfl rfl rfl rfl,
   C10_amended.2.2.2.2.2.1 "RCV" oracleValid [rowFixture] (mkRat 1 10) "/api" hdrFix 0
      none none rowFixture rfl rfl rfl rfl,
   C10_amended.2.2.2.2.2.2 "RCV" oracleRpcDown [] (mkRat 1 10) "/api" hdrFix 0 none none
      "timeout" rfl rfl rfl rfl rfl⟩

end DuneMcp
